import Mathlib

/-!
Shallow embedding of the ClientFlow-AI repository (a TypeScript CRM front end)
for checking its natural-language specification.

The embedding models JavaScript values that the code actually inspects:
optional string fields stand for possibly-undefined / possibly-empty string
properties, and the helpers below reproduce JavaScript truthiness and the
short-circuiting OR operator on such values.  Remote interaction (the hosted
database and the two HTTP endpoints) is modelled by an explicit environment of
call outcomes together with a trace of the remote calls each operation issues,
in program order.
-/

namespace ClientFlow

/-- Truthiness of a possibly-missing JavaScript string: `undefined`/`null`
and the empty string are falsy, every other string is truthy. -/
def truthyS : Option String → Bool
  | none => false
  | some s => !(s == "")

/-- JavaScript `a || b` where `a` is a possibly-missing string and `b` is a
string default: returns the value of `a` when truthy, else `b`. -/
def jsOrS (a : Option String) (b : String) : String :=
  match a with
  | some s => if s == "" then b else s
  | none => b

/-- JavaScript `a || b` on two possibly-missing strings. -/
def jsOrO (a b : Option String) : Option String :=
  if truthyS a then a else b

/-- JavaScript `a || b || null` on possibly-missing strings: the first truthy
value, or `null` when both are falsy. -/
def jsOr3 (a b : Option String) : Option String :=
  if truthyS a then a else if truthyS b then b else none

/-- JavaScript string coercion of a possibly-missing string, as used by
`String(x)`: `undefined` prints as the string `undefined`. -/
def jsString : Option String → String
  | none => "undefined"
  | some s => s

/-- JavaScript `s.trim()`: strip whitespace from both ends, written over the
character list so that concrete inputs evaluate. -/
def jsTrim (s : String) : String :=
  String.mk (((s.data.dropWhile Char.isWhitespace).reverse.dropWhile Char.isWhitespace).reverse)

/-- JavaScript `s.toLowerCase()` on the ASCII range the code compares against. -/
def jsToLower (s : String) : String :=
  String.mk (s.data.map Char.toLower)

/-! ## Data model: raw client rows and the useClients mapping
Source: `src/src/hooks/useClients.tsx`.  A row of the remote `clients` table
is a plain record; the hook maps each row with three field fallbacks and
spreads the rest of the row through unchanged. -/

/-- A row returned by the remote `clients` query (`select("*")`).  All columns
the repository reads are modelled; each is a possibly-missing string. -/
structure RawClient where
  id : Option String
  client_id : Option String
  user_id : Option String
  name : Option String
  client_name : Option String
  email : Option String
  phone : Option String
  company : Option String
  source : Option String
  lead_source : Option String
  status : Option String
  priority : Option String
  notes : Option String
  created_at : Option String
  updated_at : Option String
deriving DecidableEq

/-- The per-row mapping inside `useClients`:
`{ ...client, id: client.client_id || client.id,
   source: client.source || client.lead_source || null,
   status: client.priority || client.status || null }`.
The object spread keeps every other column unchanged. -/
def mapClient (c : RawClient) : RawClient :=
  { c with
    id := jsOrO c.client_id c.id
    source := jsOr3 c.source c.lead_source
    status := jsOr3 c.priority c.status }

/-- The list produced by the `useClients` query function from the rows the
remote query returned: `(data || []).map(mapClient)`. -/
def useClients (rows : List RawClient) : List RawClient :=
  rows.map mapClient

/-! ## OpenAI document analysis normalization
Source: `src/src/lib/openai-config.ts`.  After the model reply is parsed,
`analyzeImageWithOpenAI` and `analyzePDFWithOpenAI` build their result through
`normalizePriority` and `normalizeSentiment`. -/

/-- The parsed JSON object extracted from the model content string:
`{ priority: string; keywordsCount: number; sentiment: string; reasoning: string }`,
where the number and the reasoning may be absent or falsy. -/
structure RawAnalysis where
  priority : String
  keywordsCount : Option Nat
  sentiment : String
  reasoning : Option String
deriving DecidableEq

/-- The analysis result type returned to callers. -/
structure PDFAnalysisResult where
  priority : String
  keywordsCount : Nat
  sentiment : String
  reasoning : String
deriving DecidableEq

/-- Source `normalizePriority`: lower-case and trim the model string; keep it
when it is one of low, medium, high; otherwise default to medium. -/
def normalizePriority (priority : String) : String :=
  let normalized := jsTrim (jsToLower priority)
  if normalized == "low" || normalized == "medium" || normalized == "high" then
    normalized
  else "medium"

/-- Source `normalizeSentiment`: lower-case and trim; accept low, mid, medium,
high, mapping medium to mid; otherwise default to mid. -/
def normalizeSentiment (sentiment : String) : String :=
  let normalized := jsTrim (jsToLower sentiment)
  if normalized == "low" || normalized == "mid" || normalized == "medium" ||
      normalized == "high" then
    if normalized == "medium" then "mid" else normalized
  else "mid"

/-- Result assembly of `analyzeImageWithOpenAI` from the parsed analysis:
`{ priority: normalizePriority(...), keywordsCount: analysis.keywordsCount || 0,
   sentiment: normalizeSentiment(...), reasoning: analysis.reasoning || "" }`. -/
def analyzeImageResult (a : RawAnalysis) : PDFAnalysisResult :=
  { priority := normalizePriority a.priority
    keywordsCount := a.keywordsCount.getD 0
    sentiment := normalizeSentiment a.sentiment
    reasoning := jsOrS a.reasoning "" }

/-- Result assembly of `analyzePDFWithOpenAI`, textually identical to the one
in `analyzeImageWithOpenAI`. -/
def analyzePDFResult (a : RawAnalysis) : PDFAnalysisResult :=
  { priority := normalizePriority a.priority
    keywordsCount := a.keywordsCount.getD 0
    sentiment := normalizeSentiment a.sentiment
    reasoning := jsOrS a.reasoning "" }

/-! ## Automation execution pipeline
Source: the unnamed repository file embedding `executeAutomation` and the three
per-type handlers (src/unnamed/part_000; src/unnamed/part_001 is an earlier
variant of the same file whose `executeAutomation` is identical in everything
the claims touch).  Remote calls are recorded in an explicit trace, in program
order; the outcome of each remote call is supplied by an environment. -/

/-- A thrown JavaScript error as the catch blocks see it: a possibly-missing
message string (`error.message` may be undefined or empty on a non-Error). -/
structure JsErr where
  message : Option String
deriving DecidableEq

/-- An error object returned by the hosted-database client: a possibly-missing
message and a possibly-missing error code (the code is compared against
PGRST116, the no-rows code, in the ai-summary handler). -/
structure SbErr where
  message : Option String
  code : Option String
deriving DecidableEq

/-- A row of the remote `clients` table as the handlers read it. -/
structure ClientRow where
  client_id : Option String
  id : Option String
  email : Option String
  name : Option String
  client_name : Option String
deriving DecidableEq

/-- The `{ data, error }` pair returned by a single-row `clients` query. -/
structure SbSingle where
  error : Option SbErr
  data : Option ClientRow
deriving DecidableEq

/-- The payload returned by the send-email edge function:
`{ success, error?, message?, data?: { id } }`. -/
structure SendEmailData where
  success : Bool
  error : Option String
  message : Option String
deriving DecidableEq

/-- The `{ data, error }` pair returned by `supabase.functions.invoke`. -/
structure InvokeResult where
  error : Option JsErr
  data : Option SendEmailData
deriving DecidableEq

/-- The outcome of the OpenAI chat-completions HTTP call: whether the response
was ok, the error message body when it was not, and the content of the first
choice when it was. -/
structure OpenAIResponse where
  ok : Bool
  errMessage : Option String
  content : Option String
deriving DecidableEq

/-- Outcomes of every remote call the execution pipeline can make, fixed ahead
of a run.  Each execution performs at most one call of each kind, so one
outcome per kind suffices. -/
structure ExecEnv where
  emailClientLookup : SbSingle
  aiLookupByClientId : SbSingle
  aiLookupById : SbSingle
  hasSession : Bool
  sendEmailInvoke : InvokeResult
  openAI : OpenAIResponse
  apiKeyVar : Option String
  insertRunOk : Bool
deriving DecidableEq

/-- Remote calls issued from inside a per-type handler.  Handlers never touch
the `automation_runs` table, which the event type makes structural. -/
inductive CallEvent where
  | fetchClients
  | fetchDeals
  | fetchInteractions
  | fetchPrioritizations
  | getSession
  | invokeSendEmail
  | openAIChat
deriving DecidableEq

/-- Every remote call the repository issues: handler calls, the two
`automation_runs` status writes of `executeAutomation`, and the two deletes of
`useDeleteAutomation`. -/
inductive RemoteEvent where
  | call : CallEvent → RemoteEvent
  | insertRun : String → RemoteEvent
  | updateRun : String → Option String → RemoteEvent
  | deleteRuns : RemoteEvent
  | deleteAutomationRow : RemoteEvent
deriving DecidableEq

/-- The `config` object stored on an automation, with the keys the handlers
read; each key may be absent. -/
structure Config where
  email_message : Option String
  email_send_date : Option String
  email_subject : Option String
  email_content : Option String
  meeting_name : Option String
  client_id : Option String
deriving DecidableEq

/-- The empty object used for `automation.config || {}`. -/
def Config.empty : Config :=
  ⟨none, none, none, none, none, none⟩

/-- An automation record with the properties `executeAutomation` and the
handlers read.  The two boolean flags carry the truthiness of the source
fields `is_enabled` and `is_active`. -/
structure Automation where
  is_enabled : Bool
  is_active : Bool
  action_type_type : Option String
  action_type : Option String
  automation_id : Option String
  id : Option String
  name : Option String
  config : Option Config
deriving DecidableEq

/-- Success payloads carried in `AutomationExecutionResult.data`.  No claim
inspects the payload contents beyond presence, but the constructors mirror the
shapes the source builds. -/
inductive ResultData where
  | emailSent (recipient : String) (subject : String)
  | meetingSent (recipient : String) (meetingName : String)
  | aiSummary (clientId : String) (clientName : String) (summary : String)
deriving DecidableEq

/-- The `AutomationExecutionResult` interface:
`{ success: boolean; message: string; data?: any }`. -/
structure AutomationExecutionResult where
  success : Bool
  message : String
  data : Option ResultData
deriving DecidableEq

/-- The catch block shared by all three handlers: a thrown error becomes
`{ success: false, message: error.message || fallback }`. -/
def catchResult (fallback : String) :
    Except JsErr AutomationExecutionResult → AutomationExecutionResult
  | .ok r => r
  | .error e => ⟨false, jsOrS e.message fallback, none⟩

/-- Recipient resolution shared verbatim by the email and meeting handlers:
keep a truthy `clientEmail` argument; otherwise, when `config.client_id` is
truthy, fetch the client row and take its email, throwing
`Client not found: ...` when the query errors or returns no row. -/
def resolveRecipientEmail (env : ExecEnv) (clientEmail : Option String)
    (clientId : Option String) :
    Except JsErr (Option String) × List CallEvent :=
  if !truthyS clientEmail && truthyS clientId then
    match env.emailClientLookup.error, env.emailClientLookup.data with
    | none, some c => (Except.ok c.email, [CallEvent.fetchClients])
    | e, _ =>
        (Except.error
          ⟨some ("Client not found: " ++ jsOrS (e.bind SbErr.message) "Unknown error")⟩,
          [CallEvent.fetchClients])
  else (Except.ok clientEmail, [])

/-- Body of the try block of `executeEmailAutomation`.  The schedule check on
`config.email_send_date` only logs and never changes control flow, so it is
not represented. -/
def emailBody (env : ExecEnv) (auto : Automation) (clientEmail : Option String) :
    Except JsErr AutomationExecutionResult × List CallEvent :=
  let config := auto.config.getD Config.empty
  let emailMessage := jsOrS config.email_message ""
  let emailSubject := jsOrS config.email_subject (jsOrS auto.name "Email from ClientFlowAI")
  if emailMessage == "" then
    (Except.error ⟨some "Email message is required"⟩, [])
  else
    match resolveRecipientEmail env clientEmail config.client_id with
    | (Except.error e, tr) => (Except.error e, tr)
    | (Except.ok recipientEmail, tr) =>
      if !truthyS recipientEmail then
        (Except.error
          ⟨some "Client email is required. Please select a client or provide an email address."⟩,
          tr)
      else
        let tr2 := tr ++ [CallEvent.getSession]
        if !env.hasSession then
          (Except.error ⟨some "User not authenticated"⟩, tr2)
        else
          let tr3 := tr2 ++ [CallEvent.invokeSendEmail]
          match env.sendEmailInvoke.error with
          | some e =>
              (Except.error ⟨some (jsOrS e.message "Failed to send email")⟩, tr3)
          | none =>
            match env.sendEmailInvoke.data with
            | none => (Except.error ⟨some "Failed to send email"⟩, tr3)
            | some d =>
              if !d.success then
                (Except.error ⟨some (jsOrS d.error "Failed to send email")⟩, tr3)
              else
                (Except.ok
                  ⟨true, jsOrS d.message "Email sent successfully",
                    some (ResultData.emailSent (recipientEmail.getD "") emailSubject)⟩,
                  tr3)

/-- Source `executeEmailAutomation`: the try body wrapped by the catch block
with fallback message `Failed to send email`. -/
def executeEmailAutomation (env : ExecEnv) (auto : Automation)
    (clientEmail : Option String) : AutomationExecutionResult × List CallEvent :=
  (catchResult "Failed to send email" (emailBody env auto clientEmail).1,
    (emailBody env auto clientEmail).2)

/-- Body of the try block of `executeMeetingFollowUpAutomation`. -/
def meetingBody (env : ExecEnv) (auto : Automation) (clientEmail : Option String) :
    Except JsErr AutomationExecutionResult × List CallEvent :=
  let config := auto.config.getD Config.empty
  let meetingName := jsOrS config.meeting_name ""
  let emailContent := jsOrS config.email_content ""
  if meetingName == "" || emailContent == "" then
    (Except.error ⟨some "Meeting name and email content are required"⟩, [])
  else
    match resolveRecipientEmail env clientEmail config.client_id with
    | (Except.error e, tr) => (Except.error e, tr)
    | (Except.ok recipientEmail, tr) =>
      if !truthyS recipientEmail then
        (Except.error
          ⟨some "Client email is required. Please select a client or provide an email address."⟩,
          tr)
      else
        let tr2 := tr ++ [CallEvent.getSession]
        if !env.hasSession then
          (Except.error ⟨some "User not authenticated"⟩, tr2)
        else
          let tr3 := tr2 ++ [CallEvent.invokeSendEmail]
          match env.sendEmailInvoke.error with
          | some e =>
              (Except.error
                ⟨some (jsOrS e.message "Failed to send meeting follow-up email")⟩, tr3)
          | none =>
            match env.sendEmailInvoke.data with
            | none =>
                (Except.error ⟨some "Failed to send meeting follow-up email"⟩, tr3)
            | some d =>
              if !d.success then
                (Except.error
                  ⟨some (jsOrS d.error "Failed to send meeting follow-up email")⟩, tr3)
              else
                (Except.ok
                  ⟨true,
                    jsOrS d.message
                      ("Meeting follow-up email sent for \"" ++ meetingName ++ "\""),
                    some (ResultData.meetingSent (recipientEmail.getD "") meetingName)⟩,
                  tr3)

/-- Source `executeMeetingFollowUpAutomation`: the try body wrapped by the
catch block with fallback `Failed to send meeting follow-up email`. -/
def executeMeetingFollowUpAutomation (env : ExecEnv) (auto : Automation)
    (clientEmail : Option String) : AutomationExecutionResult × List CallEvent :=
  (catchResult "Failed to send meeting follow-up email" (meetingBody env auto clientEmail).1,
    (meetingBody env auto clientEmail).2)

/-- Source `getOpenAIApiKey` from `src/src/lib/openai-config.ts`: throw when
the environment variable is falsy or trims to the empty string, else return
the trimmed key. -/
def getOpenAIApiKey (apiKeyVar : Option String) : Except JsErr String :=
  if !truthyS apiKeyVar then
    Except.error
      ⟨some "OpenAI API key not configured. Please add VITE_OPENAI_API_KEY to your .env file"⟩
  else if jsTrim (apiKeyVar.getD "") == "" then
    Except.error ⟨some "OpenAI API key is empty. Please check your .env file"⟩
  else Except.ok (jsTrim (apiKeyVar.getD ""))

/-- Client lookup of the ai-summary handler: query by `client_id`; when that
errors with code PGRST116, retry by `id` and adopt the retry only when it
succeeded with a row. -/
def aiClientLookup (env : ExecEnv) :
    (Option SbErr × Option ClientRow) × List CallEvent :=
  match env.aiLookupByClientId.error with
  | some e =>
    if e.code == some "PGRST116" then
      match env.aiLookupById.error, env.aiLookupById.data with
      | none, some c => ((none, some c), [CallEvent.fetchClients, CallEvent.fetchClients])
      | _, _ =>
          ((some e, env.aiLookupByClientId.data),
            [CallEvent.fetchClients, CallEvent.fetchClients])
    else ((some e, env.aiLookupByClientId.data), [CallEvent.fetchClients])
  | none => ((none, env.aiLookupByClientId.data), [CallEvent.fetchClients])

/-- Body of the try block of `executeAIClientSummaryAutomation`.  The deals,
interactions and prioritizations queries feed only the prompt string sent to
the model; the prompt text itself is not represented, but the three remote
calls are recorded.  The result of the OpenAI call is taken from the
environment. -/
def aiBody (env : ExecEnv) (auto : Automation) :
    Except JsErr AutomationExecutionResult × List CallEvent :=
  let config := auto.config.getD Config.empty
  if !truthyS config.client_id then
    (Except.error ⟨some "Client ID is required"⟩, [])
  else
    let clientId := config.client_id.getD ""
    match aiClientLookup env with
    | ((none, some client), trL) =>
      let actualClientId := jsOrS (jsOrO client.client_id client.id) clientId
      let clientName := jsOrS (jsOrO client.name client.client_name) "Unknown"
      let trM := trL ++
        [CallEvent.fetchDeals, CallEvent.fetchInteractions, CallEvent.fetchPrioritizations]
      match getOpenAIApiKey env.apiKeyVar with
      | Except.error e => (Except.error e, trM)
      | Except.ok key =>
        if key == "" then
          (Except.error
            ⟨some "OpenAI API key is not configured. Please set VITE_OPENAI_API_KEY in your environment variables."⟩,
            trM)
        else
          let trO := trM ++ [CallEvent.openAIChat]
          if !env.openAI.ok then
            (Except.error
              ⟨some (jsOrS env.openAI.errMessage "Failed to generate AI summary")⟩, trO)
          else
            (Except.ok
              ⟨true, "AI client summary generated successfully",
                some (ResultData.aiSummary actualClientId clientName
                  (jsOrS env.openAI.content "No summary generated"))⟩,
              trO)
    | ((e, _), trL) =>
        (Except.error
          ⟨some ("Client not found: " ++ jsOrS (e.bind SbErr.message) "Unknown error")⟩,
          trL)

/-- Source `executeAIClientSummaryAutomation`: the try body wrapped by the
catch block with fallback `Failed to generate AI summary`. -/
def executeAIClientSummaryAutomation (env : ExecEnv) (auto : Automation) :
    AutomationExecutionResult × List CallEvent :=
  (catchResult "Failed to generate AI summary" (aiBody env auto).1,
    (aiBody env auto).2)

/-- The switch scrutinee of `executeAutomation`:
`automation.action_type_type || automation.action_type`. -/
def switchVal (auto : Automation) : Option String :=
  jsOrO auto.action_type_type auto.action_type

/-- The switch of `executeAutomation` dispatching to the per-type handler.
Every branch produces a value rather than throwing, because each handler
catches internally, so the outcome is always `Except.ok`; the `Except` layer
keeps the try/catch structure of the caller visible. -/
def dispatchAutomation (env : ExecEnv) (auto : Automation)
    (clientEmail : Option String) :
    Except JsErr AutomationExecutionResult × List CallEvent :=
  match switchVal auto with
  | some "email" =>
      (Except.ok (executeEmailAutomation env auto clientEmail).1,
        (executeEmailAutomation env auto clientEmail).2)
  | some "meeting" =>
      (Except.ok (executeMeetingFollowUpAutomation env auto clientEmail).1,
        (executeMeetingFollowUpAutomation env auto clientEmail).2)
  | some "ai-summary" =>
      (Except.ok (executeAIClientSummaryAutomation env auto).1,
        (executeAIClientSummaryAutomation env auto).2)
  | k =>
      (Except.ok ⟨false, "Unknown automation type: " ++ jsString k, none⟩, [])

/-- Source `executeAutomation`.  When the automation is not disabled it first
inserts an `automation_runs` row with status `running` (the insert call is
always issued; `insertRunOk` says whether the database returned the row),
dispatches to the per-type handler inside a try block, and, when the insert
returned a row, updates that row once: status `completed` with a null error
message on success, else status `failed` with the result message.  The update
also attaches `result_data` for successful ai-summary runs; that payload is
not carried on the trace event.  The catch branch, reachable only if the
dispatch threw, would update the row to `failed` with the thrown message. -/
def executeAutomation (env : ExecEnv) (auto : Automation)
    (clientEmail : Option String) : AutomationExecutionResult × List RemoteEvent :=
  if !auto.is_enabled && !auto.is_active then
    (⟨false, "Automation is disabled", none⟩, [])
  else
    match dispatchAutomation env auto clientEmail with
    | (Except.ok result, htr) =>
      let upd : List RemoteEvent :=
        if env.insertRunOk then
          [RemoteEvent.updateRun (if result.success then "completed" else "failed")
            (if result.success then none else some result.message)]
        else []
      (result, RemoteEvent.insertRun "running" :: htr.map RemoteEvent.call ++ upd)
    | (Except.error e, htr) =>
      let upd : List RemoteEvent :=
        if env.insertRunOk then [RemoteEvent.updateRun "failed" e.message] else []
      (⟨false, jsOrS e.message "Failed to execute automation", none⟩,
        RemoteEvent.insertRun "running" :: htr.map RemoteEvent.call ++ upd)

/-! ## useDeleteAutomation
Source: `src/src/hooks/useAutomations.tsx`.  The mutation first deletes every
`automation_runs` row of the automation (an error there is only logged), then
deletes the automation row (an error there is thrown). -/

/-- Outcomes of the two deletes issued by `useDeleteAutomation`. -/
structure DeleteAutomationEnv where
  runsDeleteError : Option SbErr
  autoDeleteError : Option SbErr
deriving DecidableEq

/-- The mutation function of `useDeleteAutomation`: two remote deletes in
order, throwing only on the second error. -/
def useDeleteAutomation (env : DeleteAutomationEnv) (_id : String) :
    Except SbErr Unit × List RemoteEvent :=
  match env.autoDeleteError with
  | some e => (Except.error e, [RemoteEvent.deleteRuns, RemoteEvent.deleteAutomationRow])
  | none => (Except.ok (), [RemoteEvent.deleteRuns, RemoteEvent.deleteAutomationRow])

/-! ## Trace observations -/

/-- The `automation_runs` status carried by an event, when it writes one. -/
def statusWritten : RemoteEvent → Option String
  | RemoteEvent.insertRun s => some s
  | RemoteEvent.updateRun s _ => some s
  | _ => none

/-- Whether an event is an update of an `automation_runs` row. -/
def isRunUpdate : RemoteEvent → Bool
  | RemoteEvent.updateRun _ _ => true
  | _ => false

/-- Whether an event writes to a remote table (run insert or update, or one of
the deletes); the HTTP calls and reads are not table writes. -/
def isRemoteWrite : RemoteEvent → Bool
  | RemoteEvent.call _ => false
  | _ => true

/-- The sequence of `automation_runs` statuses a trace writes, in order. -/
def runStatuses (tr : List RemoteEvent) : List String :=
  tr.filterMap statusWritten

/-- Whether every remote-call outcome in the environment is a success, so that
no remote call made under it can throw or report an error. -/
def ExecEnv.allRemoteCallsSucceed (env : ExecEnv) : Bool :=
  env.emailClientLookup.error.isNone && env.emailClientLookup.data.isSome &&
  env.aiLookupByClientId.error.isNone && env.aiLookupByClientId.data.isSome &&
  env.aiLookupById.error.isNone && env.aiLookupById.data.isSome &&
  env.hasSession &&
  env.sendEmailInvoke.error.isNone &&
  (match env.sendEmailInvoke.data with
   | some d => d.success && d.error.isNone
   | none => false) &&
  env.openAI.ok &&
  truthyS env.apiKeyVar &&
  env.insertRunOk

/-! ## PriorityClients dashboard list
Source: `src/src/components/dashboard/PriorityClients.tsx`.  The component
consumes the mapped clients of `useClients` and the deals list, enriches each
client with a deal count and a priority string, sorts with the priority
comparator and keeps the first five. -/

/-- A deal row as `PriorityClients` reads it: `deal.client_id` and the nested
`deal.clients?.id`. -/
structure DealRow where
  client_id : Option String
  clients_id : Option String
deriving DecidableEq

/-- The deal filter inside the component:
`String(deal.client_id || deal.clients?.id) === String(client.id)`. -/
def dealMatchesClient (client : RawClient) (d : DealRow) : Bool :=
  jsString (jsOrO d.client_id d.clients_id) == jsString client.id

/-- A client enriched by the component with its deal count and the priority
string `client.status || "medium"`. -/
structure PriorityClientEntry where
  client : RawClient
  dealsCount : Nat
  priority : String
deriving DecidableEq

/-- The rank lookup `priorityOrder[p] || 2` with
`priorityOrder = { high: 3, medium: 2, low: 1 }`. -/
def priorityRank (p : String) : Nat :=
  if p == "high" then 3 else if p == "medium" then 2 else if p == "low" then 1 else 2

/-- The `.map` stage of the component pipeline. -/
def enrichClients (clients : List RawClient) (deals : List DealRow) :
    List PriorityClientEntry :=
  clients.map fun c =>
    { client := c
      dealsCount := (deals.filter (dealMatchesClient c)).length
      priority := jsOrS c.status "medium" }

/-- The sort comparator as an ordering test: the JavaScript comparator returns
`bRank - aRank` when the ranks differ and `b.deals - a.deals` otherwise, so
entry `a` may precede entry `b` exactly when this test holds. -/
def priorityCmpLe (a b : PriorityClientEntry) : Bool :=
  if priorityRank b.priority ≠ priorityRank a.priority then
    decide (priorityRank b.priority ≤ priorityRank a.priority)
  else decide (b.dealsCount ≤ a.dealsCount)

/-- The whole `priorityClients` pipeline of the component:
map, sort by the comparator, `slice(0, 5)`. -/
def priorityClients (clients : List RawClient) (deals : List DealRow) :
    List PriorityClientEntry :=
  ((enrichClients clients deals).mergeSort priorityCmpLe).take 5

/-! ## Concrete fixtures for witnesses and counterexamples -/

/-- A client row present in the remote table. -/
def clientRowA : ClientRow :=
  ⟨some "c1", some "c1", some "alice@example.com", some "Alice", none⟩

/-- An environment in which every remote call succeeds. -/
def envAllOk : ExecEnv :=
  { emailClientLookup := ⟨none, some clientRowA⟩
    aiLookupByClientId := ⟨none, some clientRowA⟩
    aiLookupById := ⟨none, some clientRowA⟩
    hasSession := true
    sendEmailInvoke := ⟨none, some ⟨true, none, some "Email sent successfully"⟩⟩
    openAI := ⟨true, none, some "A detailed summary."⟩
    apiKeyVar := some "sk-test-key"
    insertRunOk := true }

/-- An enabled email automation with a message and a client id. -/
def autoEmailOk : Automation :=
  { is_enabled := true, is_active := true, action_type_type := some "email",
    action_type := none, automation_id := some "a1", id := some "a1",
    name := some "Welcome", config :=
      some { Config.empty with email_message := some "Hello", client_id := some "c1" } }

/-- An enabled email automation whose config is missing the email message. -/
def autoEmailNoMsg : Automation :=
  { is_enabled := true, is_active := true, action_type_type := some "email",
    action_type := none, automation_id := some "a2", id := some "a2",
    name := some "Newsletter", config := some Config.empty }

/-- An enabled ai-summary automation with a client id. -/
def autoAiOk : Automation :=
  { is_enabled := true, is_active := true, action_type_type := some "ai-summary",
    action_type := none, automation_id := some "a3", id := some "a3",
    name := some "Summary", config := some { Config.empty with client_id := some "c1" } }

/-- An automation whose enabled flags are both falsy. -/
def autoDisabled : Automation :=
  { is_enabled := false, is_active := false, action_type_type := some "email",
    action_type := none, automation_id := some "a4", id := some "a4",
    name := some "Off", config :=
      some { Config.empty with email_message := some "Hello", client_id := some "c1" } }

/-- A delete environment in which both deletes succeed. -/
def delEnvOk : DeleteAutomationEnv := ⟨none, none⟩

/-! ## Helper lemmas -/

/-- The dispatch switch never throws: every branch wraps a handler value. -/
theorem dispatch_fst_ok (env : ExecEnv) (auto : Automation) (ce : Option String) :
    ∃ r htr, dispatchAutomation env auto ce = (Except.ok r, htr) := by
  unfold dispatchAutomation
  split <;> exact ⟨_, _, rfl⟩

/-- Unfolding of `executeAutomation` on an automation whose `is_enabled` flag
is truthy: insert first, handler calls, then the one status update when the
insert returned a row. -/
theorem executeAutomation_trace (env : ExecEnv) (auto : Automation) (ce : Option String)
    (hen : auto.is_enabled = true) :
    ∃ r htr, dispatchAutomation env auto ce = (Except.ok r, htr) ∧
      executeAutomation env auto ce =
        (r, RemoteEvent.insertRun "running" :: htr.map RemoteEvent.call ++
          (if env.insertRunOk then
            [RemoteEvent.updateRun (if r.success then "completed" else "failed")
              (if r.success then none else some r.message)]
           else [])) := by
  obtain ⟨r, htr, hd⟩ := dispatch_fst_ok env auto ce
  exact ⟨r, htr, hd, by simp [executeAutomation, hen, hd]⟩

/-- Handler calls write no `automation_runs` status. -/
theorem filterMap_statusWritten_calls (l : List CallEvent) :
    (l.map RemoteEvent.call).filterMap statusWritten = [] := by
  induction l with
  | nil => rfl
  | cons c cs ih => simp [statusWritten, ih]

/-- Handler calls are not run updates. -/
theorem filter_isRunUpdate_calls (l : List CallEvent) :
    (l.map RemoteEvent.call).filter isRunUpdate = [] := by
  induction l with
  | nil => rfl
  | cons c cs ih => simp [isRunUpdate, ih]

/-- Handler calls are not table writes. -/
theorem filter_isRemoteWrite_calls (l : List CallEvent) :
    (l.map RemoteEvent.call).filter isRemoteWrite = [] := by
  induction l with
  | nil => rfl
  | cons c cs ih => simp [isRemoteWrite, ih]

/-- The last element of a trace of the form head, middle, final write. -/
theorem getLast?_cons_concat {α : Type} (a u : α) (l : List α) :
    (a :: (l ++ [u])).getLast? = some u := by
  rw [← List.cons_append, List.getLast?_concat]

/-- The run-status protocol of a single execution trace: the first remote call
is the `running` insert (so it precedes the side effect), the trace carries
exactly one run update, that update is the last remote call, its status and
error message are determined by the handler result, every inserted status is
`running`, and every status written belongs to the three-value set. -/
def RunStatusProtocol (env : ExecEnv) (auto : Automation) (ce : Option String) : Prop :=
  (executeAutomation env auto ce).2.head? = some (RemoteEvent.insertRun "running") ∧
  (executeAutomation env auto ce).2.filter isRunUpdate =
    [RemoteEvent.updateRun
      (if (executeAutomation env auto ce).1.success then "completed" else "failed")
      (if (executeAutomation env auto ce).1.success then none
       else some (executeAutomation env auto ce).1.message)] ∧
  (executeAutomation env auto ce).2.getLast? =
    some (RemoteEvent.updateRun
      (if (executeAutomation env auto ce).1.success then "completed" else "failed")
      (if (executeAutomation env auto ce).1.success then none
       else some (executeAutomation env auto ce).1.message)) ∧
  (∀ s, RemoteEvent.insertRun s ∈ (executeAutomation env auto ce).2 → s = "running") ∧
  (∀ e ∈ (executeAutomation env auto ce).2, ∀ s, statusWritten e = some s →
    s = "running" ∨ s = "completed" ∨ s = "failed")

/-- C1: for every enabled automation whose run insert returns a row,
`executeAutomation` inserts the `running` row first, updates that row exactly
once after the handler finishes — `completed` on success, `failed` otherwise —
and never writes any other status value. -/
theorem C1_run_status_protocol (env : ExecEnv) (auto : Automation) (ce : Option String)
    (hen : auto.is_enabled = true) (hins : env.insertRunOk = true) :
    RunStatusProtocol env auto ce := by
  obtain ⟨r, htr, hd, he⟩ := executeAutomation_trace env auto ce hen
  rw [if_pos hins] at he
  have h1 : (executeAutomation env auto ce).1 = r := by rw [he]
  have h2 : (executeAutomation env auto ce).2 =
      RemoteEvent.insertRun "running" :: htr.map RemoteEvent.call ++
        [RemoteEvent.updateRun (if r.success then "completed" else "failed")
          (if r.success then none else some r.message)] := by rw [he]
  unfold RunStatusProtocol
  rw [h1, h2]
  refine ⟨rfl, ?_, ?_, ?_, ?_⟩
  · simp [List.filter_cons, List.filter_append, filter_isRunUpdate_calls, isRunUpdate]
  · exact getLast?_cons_concat _ _ _
  · intro s hs
    rcases List.mem_cons.mp hs with h | h
    · exact RemoteEvent.insertRun.inj h
    · rcases List.mem_append.mp h with h | h
      · obtain ⟨c, _, hc⟩ := List.mem_map.mp h
        cases hc
      · have := List.mem_singleton.mp h
        cases this
  · intro e he' s hs
    rcases List.mem_cons.mp he' with h | h
    · subst h
      simp only [statusWritten, Option.some.injEq] at hs
      exact Or.inl hs.symm
    · rcases List.mem_append.mp h with h | h
      · obtain ⟨c, _, hc⟩ := List.mem_map.mp h
        subst hc
        simp [statusWritten] at hs
      · have hup := List.mem_singleton.mp h
        subst hup
        simp only [statusWritten, Option.some.injEq] at hs
        subst hs
        by_cases hr : r.success = true
        · rw [if_pos hr]
          exact Or.inr (Or.inl rfl)
        · rw [if_neg hr]
          exact Or.inr (Or.inr rfl)

/-- Witness for C1 at a concrete enabled email automation in an all-succeeding
environment. -/
theorem C1_run_status_protocol_witness :
    autoEmailOk.is_enabled = true ∧ envAllOk.insertRunOk = true ∧
    RunStatusProtocol envAllOk autoEmailOk (some "bob@example.com") :=
  ⟨rfl, rfl, C1_run_status_protocol envAllOk autoEmailOk (some "bob@example.com") rfl rfl⟩

/-- C2 counterexample: in an environment where every remote call succeeds, an
enabled email automation whose config is missing the message is still recorded
as `failed` — the handler fails on local validation, so the terminal state is
not driven by whether a remote call throws. -/
theorem C2_counterexample :
    ExecEnv.allRemoteCallsSucceed envAllOk = true ∧
    autoEmailNoMsg.is_enabled = true ∧
    (executeAutomation envAllOk autoEmailNoMsg none).1.success = false ∧
    (executeAutomation envAllOk autoEmailNoMsg none).1.message =
      "Email message is required" ∧
    runStatuses (executeAutomation envAllOk autoEmailNoMsg none).2 =
      ["running", "failed"] :=
  ⟨rfl, rfl, rfl, rfl, rfl⟩

/-- The amended run lifecycle: the recorded statuses are exactly `running`
followed by one terminal status, and the terminal status is `completed`
exactly when the per-type handler reported success. -/
def LifecycleSpec (env : ExecEnv) (auto : Automation) (ce : Option String) : Prop :=
  ∃ r htr, dispatchAutomation env auto ce = (Except.ok r, htr) ∧
    (executeAutomation env auto ce).1 = r ∧
    runStatuses (executeAutomation env auto ce).2 =
      ["running", if r.success then "completed" else "failed"]

/-- C2, amended: for every enabled automation whose run insert returns a row,
the run passes through exactly the states `running` and then `completed` or
`failed`, and the terminal state is driven by whether the per-type handler
reports success — which a local validation failure or an unknown automation
type can prevent even when no remote call throws. -/
theorem C2_amended_lifecycle (env : ExecEnv) (auto : Automation) (ce : Option String)
    (hen : auto.is_enabled = true) (hins : env.insertRunOk = true) :
    LifecycleSpec env auto ce := by
  obtain ⟨r, htr, hd, he⟩ := executeAutomation_trace env auto ce hen
  rw [if_pos hins] at he
  refine ⟨r, htr, hd, by rw [he], ?_⟩
  have h2 : (executeAutomation env auto ce).2 =
      RemoteEvent.insertRun "running" :: htr.map RemoteEvent.call ++
        [RemoteEvent.updateRun (if r.success then "completed" else "failed")
          (if r.success then none else some r.message)] := by rw [he]
  rw [h2]
  unfold runStatuses
  simp [List.filterMap_cons, List.filterMap_append, filterMap_statusWritten_calls,
    statusWritten]

/-- Witness for the amended C2 at a concrete enabled email automation. -/
theorem C2_amended_lifecycle_witness :
    autoEmailOk.is_enabled = true ∧ envAllOk.insertRunOk = true ∧
    LifecycleSpec envAllOk autoEmailOk (some "bob@example.com") :=
  ⟨rfl, rfl, C2_amended_lifecycle envAllOk autoEmailOk (some "bob@example.com") rfl rfl⟩

/-- C3 counterexample: a successful run of an enabled ai-summary automation
issues seven remote calls — status insert, client fetch, deals fetch,
interactions fetch, prioritizations fetch, the OpenAI HTTP call, and the
status update — not three. -/
theorem C3_counterexample :
    (executeAutomation envAllOk autoAiOk none).2 =
      [RemoteEvent.insertRun "running",
       RemoteEvent.call CallEvent.fetchClients,
       RemoteEvent.call CallEvent.fetchDeals,
       RemoteEvent.call CallEvent.fetchInteractions,
       RemoteEvent.call CallEvent.fetchPrioritizations,
       RemoteEvent.call CallEvent.openAIChat,
       RemoteEvent.updateRun "completed" none] ∧
    (executeAutomation envAllOk autoAiOk none).2.length ≠ 3 := by
  refine ⟨rfl, by decide⟩

/-- The amended pipeline shape: a single linear pass with the status insert
first, then whatever remote calls the per-type handler makes, then the one
status update; the number of remote calls depends on the type, the config and
the failure point, and is not three in general. -/
def PipelineShapeSpec (env : ExecEnv) (auto : Automation) (ce : Option String) : Prop :=
  ∃ r htr, dispatchAutomation env auto ce = (Except.ok r, htr) ∧
    executeAutomation env auto ce =
      (r, RemoteEvent.insertRun "running" :: htr.map RemoteEvent.call ++
        [RemoteEvent.updateRun (if r.success then "completed" else "failed")
          (if r.success then none else some r.message)])

/-- C3, amended: for every enabled automation whose run insert returns a row,
the pipeline is a linear sequence of remote calls — the status insert, the
handler remote calls (client fetch, HTTP API call, and for ai-summary three
further reads), then the status update — without the call count being fixed
at three. -/
theorem C3_amended_pipeline_shape (env : ExecEnv) (auto : Automation)
    (ce : Option String)
    (hen : auto.is_enabled = true) (hins : env.insertRunOk = true) :
    PipelineShapeSpec env auto ce := by
  obtain ⟨r, htr, hd, he⟩ := executeAutomation_trace env auto ce hen
  rw [if_pos hins] at he
  exact ⟨r, htr, hd, he⟩

/-- Witness for the amended C3 at a concrete enabled ai-summary automation. -/
theorem C3_amended_pipeline_shape_witness :
    autoAiOk.is_enabled = true ∧ envAllOk.insertRunOk = true ∧
    PipelineShapeSpec envAllOk autoAiOk none :=
  ⟨rfl, rfl, C3_amended_pipeline_shape envAllOk autoAiOk none rfl rfl⟩

/-- The failure path of `executeAutomation`: one handler pass, one `failed`
update carrying the result message as the error message, the result returned
unchanged, and no further remote write. -/
def FailurePathSpec (env : ExecEnv) (auto : Automation) (ce : Option String) : Prop :=
  ∃ r htr, dispatchAutomation env auto ce = (Except.ok r, htr) ∧
    r.success = false ∧
    executeAutomation env auto ce =
      (r, RemoteEvent.insertRun "running" :: htr.map RemoteEvent.call ++
        [RemoteEvent.updateRun "failed" (some r.message)]) ∧
    (executeAutomation env auto ce).2.filter isRemoteWrite =
      [RemoteEvent.insertRun "running", RemoteEvent.updateRun "failed" (some r.message)]

/-- C4: when an enabled automation whose run insert returned a row fails, the
only recovery action is the error string — the run row is updated once to
`failed` with the failure message, the same message is returned with success
false, and the handler is not re-executed nor any further write issued. -/
theorem C4_failure_path (env : ExecEnv) (auto : Automation) (ce : Option String)
    (hen : auto.is_enabled = true) (hins : env.insertRunOk = true)
    (hfail : (executeAutomation env auto ce).1.success = false) :
    FailurePathSpec env auto ce := by
  obtain ⟨r, htr, hd, he⟩ := executeAutomation_trace env auto ce hen
  rw [if_pos hins] at he
  have hr : r.success = false := by
    have h1 : (executeAutomation env auto ce).1 = r := by rw [he]
    rw [h1] at hfail
    exact hfail
  rw [hr] at he
  simp only [Bool.false_eq_true, if_false] at he
  refine ⟨r, htr, hd, hr, he, ?_⟩
  have h2 : (executeAutomation env auto ce).2 =
      RemoteEvent.insertRun "running" :: htr.map RemoteEvent.call ++
        [RemoteEvent.updateRun "failed" (some r.message)] := by rw [he]
  rw [h2]
  simp [List.filter_cons, List.filter_append, filter_isRemoteWrite_calls, isRemoteWrite]

/-- Witness for C4: a concrete enabled email automation with a missing message
fails, and the theorem applies to it. -/
theorem C4_failure_path_witness :
    autoEmailNoMsg.is_enabled = true ∧ envAllOk.insertRunOk = true ∧
    (executeAutomation envAllOk autoEmailNoMsg none).1.success = false ∧
    FailurePathSpec envAllOk autoEmailNoMsg none :=
  ⟨rfl, rfl, rfl, C4_failure_path envAllOk autoEmailNoMsg none rfl rfl rfl⟩

/-- C9: for every automation whose `is_enabled` and `is_active` fields are
both falsy, `executeAutomation` returns success false with the message
`Automation is disabled` and issues no remote call at all — no run insert, no
handler call, no email or HTTP call. -/
theorem C9_disabled_no_remote_calls (env : ExecEnv) (auto : Automation)
    (ce : Option String)
    (he : auto.is_enabled = false) (ha : auto.is_active = false) :
    executeAutomation env auto ce =
      (⟨false, "Automation is disabled", none⟩, ([] : List RemoteEvent)) := by
  simp [executeAutomation, he, ha]

/-- Witness for C9 at a concrete disabled automation. -/
theorem C9_disabled_no_remote_calls_witness :
    autoDisabled.is_enabled = false ∧ autoDisabled.is_active = false ∧
    executeAutomation envAllOk autoDisabled none =
      (⟨false, "Automation is disabled", none⟩, ([] : List RemoteEvent)) :=
  ⟨rfl, rfl, C9_disabled_no_remote_calls envAllOk autoDisabled none rfl rfl⟩


/-- Whenever the email try body completes without throwing, it reports
success: every failure inside the body is a throw. -/
theorem emailBody_ok_success (env : ExecEnv) (auto : Automation) (ce : Option String)
    (r : AutomationExecutionResult) (h : (emailBody env auto ce).1 = Except.ok r) :
    r.success = true := by
  unfold emailBody at h
  dsimp only at h
  repeat' split at h
  all_goals dsimp only at h
  all_goals try simp_all
  all_goals rw [← h]

/-- Whenever the meeting try body completes without throwing, it reports
success. -/
theorem meetingBody_ok_success (env : ExecEnv) (auto : Automation) (ce : Option String)
    (r : AutomationExecutionResult) (h : (meetingBody env auto ce).1 = Except.ok r) :
    r.success = true := by
  unfold meetingBody at h
  dsimp only at h
  repeat' split at h
  all_goals dsimp only at h
  all_goals try simp_all
  all_goals rw [← h]

/-- Whenever the ai-summary try body completes without throwing, it reports
success. -/
theorem aiBody_ok_success (env : ExecEnv) (auto : Automation)
    (r : AutomationExecutionResult) (h : (aiBody env auto).1 = Except.ok r) :
    r.success = true := by
  unfold aiBody at h
  dsimp only at h
  repeat' split at h
  all_goals dsimp only at h
  all_goals try simp_all
  all_goals rw [← h]

/-- C5: none of the three per-type handlers ever throws to its caller — each
either returns the successful result of its try body, or catches the thrown
error and returns success false with the error message, falling back to the
fixed handler message when the thrown message is falsy. -/
theorem C5_handlers_never_throw (env : ExecEnv) (auto : Automation) (ce : Option String) :
    ((∃ r, (emailBody env auto ce).1 = Except.ok r ∧
        (executeEmailAutomation env auto ce).1 = r ∧ r.success = true) ∨
      (∃ e, (emailBody env auto ce).1 = Except.error e ∧
        (executeEmailAutomation env auto ce).1 =
          ⟨false, jsOrS e.message "Failed to send email", none⟩)) ∧
    ((∃ r, (meetingBody env auto ce).1 = Except.ok r ∧
        (executeMeetingFollowUpAutomation env auto ce).1 = r ∧ r.success = true) ∨
      (∃ e, (meetingBody env auto ce).1 = Except.error e ∧
        (executeMeetingFollowUpAutomation env auto ce).1 =
          ⟨false, jsOrS e.message "Failed to send meeting follow-up email", none⟩)) ∧
    ((∃ r, (aiBody env auto).1 = Except.ok r ∧
        (executeAIClientSummaryAutomation env auto).1 = r ∧ r.success = true) ∨
      (∃ e, (aiBody env auto).1 = Except.error e ∧
        (executeAIClientSummaryAutomation env auto).1 =
          ⟨false, jsOrS e.message "Failed to generate AI summary", none⟩)) := by
  refine ⟨?_, ?_, ?_⟩
  · cases h : (emailBody env auto ce).1 with
    | ok r =>
        exact Or.inl ⟨r, rfl, by simp [executeEmailAutomation, h, catchResult],
          emailBody_ok_success env auto ce r h⟩
    | error e =>
        exact Or.inr ⟨e, rfl, by simp [executeEmailAutomation, h, catchResult]⟩
  · cases h : (meetingBody env auto ce).1 with
    | ok r =>
        exact Or.inl ⟨r, rfl, by simp [executeMeetingFollowUpAutomation, h, catchResult],
          meetingBody_ok_success env auto ce r h⟩
    | error e =>
        exact Or.inr ⟨e, rfl, by simp [executeMeetingFollowUpAutomation, h, catchResult]⟩
  · cases h : (aiBody env auto).1 with
    | ok r =>
        exact Or.inl ⟨r, rfl, by simp [executeAIClientSummaryAutomation, h, catchResult],
          aiBody_ok_success env auto r h⟩
    | error e =>
        exact Or.inr ⟨e, rfl, by simp [executeAIClientSummaryAutomation, h, catchResult]⟩

/-- C6: every record produced by the useClients mapping applies the three
field fallbacks — client_id over id, source over lead_source over null,
priority over status over null — and passes every other column through
unchanged. -/
theorem C6_useClients_field_fallbacks (rows : List RawClient) :
    List.Forall₂ (fun c m =>
      m.id = (if truthyS c.client_id then c.client_id else c.id) ∧
      m.source = (if truthyS c.source then c.source else
        if truthyS c.lead_source then c.lead_source else none) ∧
      m.status = (if truthyS c.priority then c.priority else
        if truthyS c.status then c.status else none) ∧
      m.user_id = c.user_id ∧ m.name = c.name ∧ m.client_name = c.client_name ∧
      m.email = c.email ∧ m.phone = c.phone ∧ m.company = c.company ∧
      m.lead_source = c.lead_source ∧ m.priority = c.priority ∧
      m.notes = c.notes ∧ m.created_at = c.created_at ∧ m.updated_at = c.updated_at)
      rows (useClients rows) := by
  induction rows with
  | nil => exact List.Forall₂.nil
  | cons c cs ih =>
      exact List.Forall₂.cons
        ⟨rfl, rfl, rfl, rfl, rfl, rfl, rfl, rfl, rfl, rfl, rfl, rfl, rfl, rfl⟩ ih

/-- C7 counterexample: the delete-automation mutation issues two remote table
writes in a single call, refuting the one-write-per-operation claim. -/
theorem C7_counterexample :
    ((useDeleteAutomation delEnvOk "a-1").2.filter isRemoteWrite).length = 2 ∧
    ¬ ((useDeleteAutomation delEnvOk "a-1").2.filter isRemoteWrite).length ≤ 1 :=
  ⟨rfl, by decide⟩

/-- The amended write pattern: the delete mutation always issues the runs
delete followed by the automation delete, and an executed enabled automation
issues exactly two run-table writes (the insert and the one update). -/
def SequencedWritesSpec (denv : DeleteAutomationEnv) (did : String)
    (env : ExecEnv) (auto : Automation) (ce : Option String) : Prop :=
  (useDeleteAutomation denv did).2 =
    [RemoteEvent.deleteRuns, RemoteEvent.deleteAutomationRow] ∧
  ((executeAutomation env auto ce).2.filter isRemoteWrite).length = 2

/-- C7, amended: most operations are single round trips, but
`useDeleteAutomation` issues two sequenced deletes (runs first to clear the
foreign-key constraint, then the automation), and `executeAutomation` on an
enabled automation issues two run-table writes, the second keyed on the row
the first returned. -/
theorem C7_amended_sequenced_writes (denv : DeleteAutomationEnv) (did : String)
    (env : ExecEnv) (auto : Automation) (ce : Option String)
    (hen : auto.is_enabled = true) (hins : env.insertRunOk = true) :
    SequencedWritesSpec denv did env auto ce := by
  constructor
  · cases h : denv.autoDeleteError <;> simp [useDeleteAutomation, h]
  · obtain ⟨r, htr, hd, he⟩ := executeAutomation_trace env auto ce hen
    rw [if_pos hins] at he
    have h2 : (executeAutomation env auto ce).2 =
        RemoteEvent.insertRun "running" :: htr.map RemoteEvent.call ++
          [RemoteEvent.updateRun (if r.success then "completed" else "failed")
            (if r.success then none else some r.message)] := by rw [he]
    rw [h2]
    simp [List.filter_cons, List.filter_append, filter_isRemoteWrite_calls, isRemoteWrite]

/-- Witness for the amended C7 at concrete inputs. -/
theorem C7_amended_sequenced_writes_witness :
    autoEmailOk.is_enabled = true ∧ envAllOk.insertRunOk = true ∧
    SequencedWritesSpec delEnvOk "a-1" envAllOk autoEmailOk (some "bob@example.com") :=
  ⟨rfl, rfl, C7_amended_sequenced_writes delEnvOk "a-1" envAllOk autoEmailOk
    (some "bob@example.com") rfl rfl⟩

/-- Characterization of `normalizePriority` over the trimmed lower-cased
input. -/
theorem normalizePriority_spec (s : String) :
    normalizePriority s =
      if jsTrim (jsToLower s) = "low" ∨ jsTrim (jsToLower s) = "medium" ∨
          jsTrim (jsToLower s) = "high"
        then jsTrim (jsToLower s) else "medium" := by
  simp only [normalizePriority]
  by_cases h1 : jsTrim (jsToLower s) = "low" <;>
    by_cases h2 : jsTrim (jsToLower s) = "medium" <;>
      by_cases h3 : jsTrim (jsToLower s) = "high" <;>
        simp [h1, h2, h3]

/-- Characterization of `normalizeSentiment` over the trimmed lower-cased
input. -/
theorem normalizeSentiment_spec (s : String) :
    normalizeSentiment s =
      if jsTrim (jsToLower s) = "medium" then "mid"
      else if jsTrim (jsToLower s) = "low" ∨ jsTrim (jsToLower s) = "mid" ∨
          jsTrim (jsToLower s) = "high"
        then jsTrim (jsToLower s) else "mid" := by
  simp only [normalizeSentiment]
  by_cases h1 : jsTrim (jsToLower s) = "medium" <;>
    by_cases h2 : jsTrim (jsToLower s) = "low" <;>
      by_cases h3 : jsTrim (jsToLower s) = "mid" <;>
        by_cases h4 : jsTrim (jsToLower s) = "high" <;>
          simp [h1, h2, h3, h4]

/-- C8: every analysis result built by the image and PDF analyzers has its
priority in the set low, medium, high and its sentiment in the set low, mid,
high; the match is on the trimmed lower-cased model string, sentiment medium
maps to mid, and unrecognized values default to medium and mid. -/
theorem C8_analysis_normalized (a : RawAnalysis) :
    ((analyzeImageResult a).priority = "low" ∨ (analyzeImageResult a).priority = "medium" ∨
      (analyzeImageResult a).priority = "high") ∧
    ((analyzeImageResult a).sentiment = "low" ∨ (analyzeImageResult a).sentiment = "mid" ∨
      (analyzeImageResult a).sentiment = "high") ∧
    (analyzeImageResult a).priority =
      (if jsTrim (jsToLower a.priority) = "low" ∨ jsTrim (jsToLower a.priority) = "medium" ∨
          jsTrim (jsToLower a.priority) = "high"
        then jsTrim (jsToLower a.priority) else "medium") ∧
    (analyzeImageResult a).sentiment =
      (if jsTrim (jsToLower a.sentiment) = "medium" then "mid"
       else if jsTrim (jsToLower a.sentiment) = "low" ∨ jsTrim (jsToLower a.sentiment) = "mid" ∨
          jsTrim (jsToLower a.sentiment) = "high"
        then jsTrim (jsToLower a.sentiment) else "mid") ∧
    analyzePDFResult a = analyzeImageResult a := by
  refine ⟨?_, ?_, ?_, ?_, rfl⟩
  · show normalizePriority a.priority = "low" ∨ normalizePriority a.priority = "medium" ∨
      normalizePriority a.priority = "high"
    rw [normalizePriority_spec]
    split
    · rename_i h
      rcases h with h | h | h <;> simp [h]
    · exact Or.inr (Or.inl rfl)
  · show normalizeSentiment a.sentiment = "low" ∨ normalizeSentiment a.sentiment = "mid" ∨
      normalizeSentiment a.sentiment = "high"
    rw [normalizeSentiment_spec]
    split
    · exact Or.inr (Or.inl rfl)
    · split
      · rename_i h' h
        rcases h with h | h | h <;> simp [h]
      · exact Or.inr (Or.inl rfl)
  · exact normalizePriority_spec a.priority
  · exact normalizeSentiment_spec a.sentiment


/-- The comparator test is total. -/
theorem priorityCmpLe_total (a b : PriorityClientEntry) :
    (priorityCmpLe a b || priorityCmpLe b a) = true := by
  unfold priorityCmpLe
  by_cases h : priorityRank b.priority = priorityRank a.priority <;>
    simp [h, Ne.symm] <;> omega

/-- The comparator test is transitive. -/
theorem priorityCmpLe_trans (a b c : PriorityClientEntry)
    (hab : priorityCmpLe a b = true) (hbc : priorityCmpLe b c = true) :
    priorityCmpLe a c = true := by
  unfold priorityCmpLe at *
  by_cases h1 : priorityRank b.priority = priorityRank a.priority <;>
    by_cases h2 : priorityRank c.priority = priorityRank b.priority <;>
      by_cases h3 : priorityRank c.priority = priorityRank a.priority <;>
        simp_all <;> omega

/-- C10: the dashboard priority list keeps at most five entries, and they are
ordered by non-increasing priority rank — high 3, medium 2, low 1, anything
else 2 — with ties ordered by non-increasing matching-deal count. -/
theorem C10_priorityClients_sorted_top5 (clients : List RawClient) (deals : List DealRow) :
    (priorityClients clients deals).length ≤ 5 ∧
    (priorityClients clients deals).Pairwise (fun a b =>
      priorityRank b.priority < priorityRank a.priority ∨
        (priorityRank b.priority = priorityRank a.priority ∧
          b.dealsCount ≤ a.dealsCount)) := by
  constructor
  · simp only [priorityClients, List.length_take]
    exact min_le_left _ _
  · have hs := List.sorted_mergeSort
      (fun a b c => priorityCmpLe_trans a b c)
      (fun a b => priorityCmpLe_total a b)
      (enrichClients clients deals)
    refine List.Pairwise.sublist (List.take_sublist 5 _) (hs.imp ?_)
    intro a b hle
    unfold priorityCmpLe at hle
    by_cases h : priorityRank b.priority = priorityRank a.priority
    · rw [if_neg (by simp [h])] at hle
      exact Or.inr ⟨h, by simpa using hle⟩
    · rw [if_pos h] at hle
      have := of_decide_eq_true hle
      omega

end ClientFlow
